import Mathlib

/-!
Shallow embedding of `wagtail/contrib/modeladmin/options.py`.

Python class attributes become fields of configuration structures; Python
truthiness (`x or default`) is embedded explicitly per type (None and 0 and
the empty string and the empty list are falsy).  Exceptions become `Except`
values.  External Django/Wagtail machinery (querysets, rendition generation,
view classes) is out of the module's scope and is represented only as far as
the embedded functions inspect it.
-/

namespace WagtailModelAdmin

/-- One entry of `model._meta.get_fields()`, carrying exactly the attributes
that `ModelAdmin.get_inspect_view_fields` reads: `name`, `concrete`,
`is_relation`, `auto_created`, and the truthiness of `related_model`. -/
structure FieldMeta where
  name : String
  concrete : Bool
  is_relation : Bool
  auto_created : Bool
  related_model : Bool
deriving DecidableEq, Repr

/-- A Python class assigned to the `model` attribute.  `is_django_model`
embeds `issubclass(cls, Model)`, `is_page` embeds `issubclass(cls, Page)`;
`app_label`, `model_name` and `fields` embed the `_meta` options object. -/
structure ModelClass where
  app_label : String
  model_name : String
  is_django_model : Bool
  is_page : Bool
  fields : List FieldMeta
deriving DecidableEq, Repr

/-- The helper classes named in options.py (imported from `.helpers`), plus
user-supplied override classes identified by name. -/
inductive HelperClass where
  | PermissionHelper
  | PagePermissionHelper
  | AdminURLHelper
  | PageAdminURLHelper
  | ButtonHelper
  | PageButtonHelper
  | custom (nm : String)
deriving DecidableEq, Repr

/-- The class-level declarative attributes of `ModelAdmin` that the embedded
methods read.  `Option` marks attributes whose default is `None`; string
template-name attributes default to the empty string as in the source. -/
structure ModelAdminConfig where
  model : Option ModelClass := none
  menu_order : Option Int := none
  list_display : List String := ["__str__"]
  list_display_add_buttons : Option String := none
  inspect_view_fields : List String := []
  inspect_view_fields_exclude : List String := []
  inspect_view_enabled : Bool := false
  index_template_name : String := ""
  create_template_name : String := ""
  edit_template_name : String := ""
  inspect_template_name : String := ""
  delete_template_name : String := ""
  choose_parent_template_name : String := ""
  permission_helper_class : Option HelperClass := none
  url_helper_class : Option HelperClass := none
  button_helper_class : Option HelperClass := none
deriving DecidableEq, Repr

/-- A constructed `ModelAdmin` instance: the class attributes together with
the validated model (`self.model`, known to be a real model class after
`__init__` succeeds).  `self.is_pagemodel` is `m.is_page`, and `self.opts`
is `m`'s metadata. -/
structure ModelAdminInst where
  cfg : ModelAdminConfig
  m : ModelClass
deriving DecidableEq, Repr

/-- Python exceptions raised (or mentioned) by options.py. -/
inductive PyError where
  | improperlyConfigured (msg : String)
  | indexError
deriving DecidableEq, Repr

namespace ModelAdmin

/-- `get_permission_helper_class`: the explicit override if set (a class is
always truthy), else the page-specific or the generic permission helper. -/
def get_permission_helper_class (self : ModelAdminInst) : HelperClass :=
  match self.cfg.permission_helper_class with
  | some c => c
  | none => if self.m.is_page then .PagePermissionHelper else .PermissionHelper

/-- `get_url_helper_class`: the explicit override if set, else the
page-specific or the generic URL helper. -/
def get_url_helper_class (self : ModelAdminInst) : HelperClass :=
  match self.cfg.url_helper_class with
  | some c => c
  | none => if self.m.is_page then .PageAdminURLHelper else .AdminURLHelper

/-- `get_button_helper_class`: the explicit override if set, else the
page-specific or the generic button helper. -/
def get_button_helper_class (self : ModelAdminInst) : HelperClass :=
  match self.cfg.button_helper_class with
  | some c => c
  | none => if self.m.is_page then .PageButtonHelper else .ButtonHelper

/-- `get_menu_order`: `self.menu_order or 999`.  Python `or` falls through
on falsy values, and the integer 0 is falsy. -/
def get_menu_order (cfg : ModelAdminConfig) : Int :=
  match cfg.menu_order with
  | none => 999
  | some v => if v = 0 then 999 else v

/-- `get_list_display`: returns the `list_display` attribute. -/
def get_list_display (self : ModelAdminInst) (_request : Unit) : List String :=
  self.cfg.list_display

/-- `get_list_display_add_buttons`:
`self.list_display_add_buttons or self.get_list_display(request)[0]`.
The attribute is falsy when it is `None` or the empty string; indexing an
empty list raises `IndexError`. -/
def get_list_display_add_buttons (self : ModelAdminInst) (request : Unit) :
    Except PyError String :=
  match self.cfg.list_display_add_buttons with
  | some s =>
    if s = "" then
      match get_list_display self request with
      | [] => .error .indexError
      | x :: _ => .ok x
    else .ok s
  | none =>
    match get_list_display self request with
    | [] => .error .indexError
    | x :: _ => .ok x

/-- `get_inspect_view_fields`: if `inspect_view_fields` is empty (falsy),
scan `model._meta.get_fields()` keeping each field whose name is not
excluded and which is concrete and (not a relation, or a non-auto-created
relation with a truthy `related_model`); otherwise return
`inspect_view_fields` unchanged. -/
def get_inspect_view_fields (self : ModelAdminInst) : List String :=
  if self.cfg.inspect_view_fields = [] then
    ((self.m.fields.filter (fun f =>
      !(decide (f.name ∈ self.cfg.inspect_view_fields_exclude)) &&
      (f.concrete &&
        (!f.is_relation || (!f.auto_created && f.related_model))))).map
      (fun f => f.name))
  else
    self.cfg.inspect_view_fields

/-- Python's `str.lower()`, embedded as a character-wise map. -/
def pyLower (s : String) : String :=
  ⟨s.data.map Char.toLower⟩

/-- `get_templates(action)`: the three-tier candidate list, built from the
lowercased app label and model name with the `modeladmin/` root. -/
def get_templates (self : ModelAdminInst) (action : String) : List String :=
  let app_label := pyLower self.m.app_label
  let model_name := pyLower self.m.model_name
  ["modeladmin/" ++ app_label ++ "/" ++ model_name ++ "/" ++ action ++ ".html",
   "modeladmin/" ++ app_label ++ "/" ++ action ++ ".html",
   "modeladmin/" ++ action ++ ".html"]

/-- A template resolution result: either the single explicitly configured
template name, or the ordered candidate list from `get_templates`. -/
inductive TemplateSpec where
  | single (t : String)
  | candidates (ts : List String)
deriving DecidableEq, Repr

/-- `get_index_template`: `self.index_template_name or self.get_templates('index')`
(the empty string is falsy). -/
def get_index_template (self : ModelAdminInst) : TemplateSpec :=
  if self.cfg.index_template_name = "" then
    .candidates (get_templates self "index")
  else .single self.cfg.index_template_name

/-- `get_choose_parent_template`. -/
def get_choose_parent_template (self : ModelAdminInst) : TemplateSpec :=
  if self.cfg.choose_parent_template_name = "" then
    .candidates (get_templates self "choose_parent")
  else .single self.cfg.choose_parent_template_name

/-- `get_inspect_template`. -/
def get_inspect_template (self : ModelAdminInst) : TemplateSpec :=
  if self.cfg.inspect_template_name = "" then
    .candidates (get_templates self "inspect")
  else .single self.cfg.inspect_template_name

/-- `get_create_template`. -/
def get_create_template (self : ModelAdminInst) : TemplateSpec :=
  if self.cfg.create_template_name = "" then
    .candidates (get_templates self "create")
  else .single self.cfg.create_template_name

/-- `get_edit_template`. -/
def get_edit_template (self : ModelAdminInst) : TemplateSpec :=
  if self.cfg.edit_template_name = "" then
    .candidates (get_templates self "edit")
  else .single self.cfg.edit_template_name

/-- `get_delete_template`. -/
def get_delete_template (self : ModelAdminInst) : TemplateSpec :=
  if self.cfg.delete_template_name = "" then
    .candidates (get_templates self "delete")
  else .single self.cfg.delete_template_name

end ModelAdmin

/-- A value stored in a constructed instance's attribute dictionary by
`ModelAdmin.__init__`. -/
inductive AttrValue where
  | opts (app_label model_name : String)
  | boolAttr (b : Bool)
  | parentAttr (p : Option String)
  | permHelper (cls : HelperClass) (model : ModelClass) (inspect_view_enabled : Bool)
  | urlHelper (cls : HelperClass) (model : ModelClass)
deriving DecidableEq, Repr

namespace ModelAdmin

/-- `ModelAdmin.__init__(parent)`: raise `ImproperlyConfigured` when
`not self.model or not issubclass(self.model, Model)` (a class object is
always truthy, so `not self.model` means the attribute is `None`); otherwise
assign, in order, `opts`, `is_pagemodel`, `parent`, `permission_helper`
(the resolved class instantiated with the model and `inspect_view_enabled`)
and `url_helper` (the resolved class instantiated with the model).  The
result is the instance's attribute dictionary in assignment order. -/
def initModelAdmin (cfg : ModelAdminConfig) (parent : Option String) :
    Except PyError (List (String × AttrValue)) :=
  match cfg.model with
  | none => .error (.improperlyConfigured
      "The model attribute on your class must be set, and must be a valid Django model.")
  | some m =>
    if !m.is_django_model then
      .error (.improperlyConfigured
        "The model attribute on your class must be set, and must be a valid Django model.")
    else
      let self : ModelAdminInst := ⟨cfg, m⟩
      .ok [("opts", .opts m.app_label m.model_name),
           ("is_pagemodel", .boolAttr m.is_page),
           ("parent", .parentAttr parent),
           ("permission_helper",
             .permHelper (get_permission_helper_class self) m cfg.inspect_view_enabled),
           ("url_helper", .urlHelper (get_url_helper_class self) m)]

/-- The helper instances produced by a construction attempt: none when the
constructor raised (execution stopped before the helper lines ran). -/
def helpersInstantiated : Except PyError (List (String × AttrValue)) → List String
  | .error _ => []
  | .ok attrs => attrs.filterMap (fun a =>
      match a.2 with
      | .permHelper _ _ _ => some a.1
      | .urlHelper _ _ => some a.1
      | _ => none)

end ModelAdmin

/-- A registered URL route: `url(pattern, view, name=name)`. -/
structure UrlEntry where
  pattern : String
  view : String
  nm : String
deriving DecidableEq, Repr

/-- Modelled from the spec: `AdminURLHelper.get_action_url_pattern` lives in
`wagtail/contrib/modeladmin/helpers.py`, which is not under src/; the URL
helper supplies a per-action URL pattern derived from the model. -/
def get_action_url_pattern (m : ModelClass) (action : String) : String :=
  m.app_label ++ "/" ++ m.model_name ++ "/" ++ action

/-- Modelled from the spec: `AdminURLHelper.get_action_url_name` lives in
`wagtail/contrib/modeladmin/helpers.py`, which is not under src/; the URL
helper supplies a per-action URL name derived from the model. -/
def get_action_url_name (m : ModelClass) (action : String) : String :=
  m.app_label ++ "_" ++ m.model_name ++ "_modeladmin_" ++ action

namespace ModelAdmin

/-- One `url(...)` route for an action, combining the helper-supplied
pattern and name with the instance's view method. -/
def action_url (self : ModelAdminInst) (action : String) : UrlEntry :=
  ⟨get_action_url_pattern self.m action, action ++ "_view",
   get_action_url_name self.m action⟩

/-- `get_admin_urls_for_registration`: the fixed tuple (index, create, edit,
delete), extended with inspect when `inspect_view_enabled`, and with
choose_parent when the model is a page model. -/
def get_admin_urls_for_registration (self : ModelAdminInst) : List UrlEntry :=
  let urls := [action_url self "index", action_url self "create",
               action_url self "edit", action_url self "delete"]
  let urls := if self.cfg.inspect_view_enabled then
    urls ++ [action_url self "inspect"] else urls
  let urls := if self.m.is_page then
    urls ++ [action_url self "choose_parent"] else urls
  urls

/-- A permission queryset as options.py produces it: either
`Permission.objects.none()` or the helper's full model permission set.
(`PermissionHelper.get_all_model_permissions` lives in helpers.py, not under
src/; modelled from the spec as the model's full permission set.) -/
inductive PermissionQS where
  | empty
  | allFor (m : ModelClass)
deriving DecidableEq, Repr

/-- `get_permissions_for_registration`: the full model permission set when
the model is neither a page model nor registered as a snippet, else the
empty permission queryset.  `SNIPPET_MODELS` is imported module state,
passed here as a parameter. -/
def get_permissions_for_registration (self : ModelAdminInst)
    (snippet_models : List ModelClass) : PermissionQS :=
  if !self.m.is_page && !(decide (self.m ∈ snippet_models)) then
    .allFor self.m
  else
    .empty

end ModelAdmin

/-- The attributes of a constructed `ModelAdminGroup`: its class-level
`menu_order` and the `modeladmin_instances` built from `items` in
`__init__`. -/
structure ModelAdminGroupInst where
  menu_order : Option Int := none
  modeladmin_instances : List ModelAdminInst := []
deriving DecidableEq, Repr

namespace ModelAdminGroup

/-- `ModelAdminGroup.get_menu_order`: `self.menu_order or 999`, with 0
falsy. -/
def get_menu_order (g : ModelAdminGroupInst) : Int :=
  match g.menu_order with
  | none => 999
  | some v => if v = 0 then 999 else v

/-- `ModelAdminGroup.get_admin_urls_for_registration`: start from the empty
tuple and append each member instance's URL tuple in order. -/
def get_admin_urls_for_registration (g : ModelAdminGroupInst) : List UrlEntry :=
  g.modeladmin_instances.foldl
    (fun urls inst => urls ++ ModelAdmin.get_admin_urls_for_registration inst) []

end ModelAdminGroup

/-- An image value as `admin_thumb` sees it: rendition generation belongs to
the external image framework, so the rendition URL is carried as data. -/
structure ImageVal where
  rendition_url : String
deriving DecidableEq, Repr

/-- The class-level attributes of `ThumbnailMixin`. -/
structure ThumbnailConfig where
  thumb_image_field_name : String := "image"
  thumb_image_filter_spec : String := "fill-100x100"
  thumb_image_width : Int := 50
  thumb_classname : String := "admin-thumb"
  thumb_default : Option String := none
deriving DecidableEq, Repr

/-- A model object as `admin_thumb` sees it: its attribute dictionary,
mapping an attribute name to an image value or to `None`.  An absent name
means the object has no such attribute. -/
def ThumbObj := List (String × Option ImageVal)

/-- `getattr(obj, name, None)`: with a default supplied, `getattr` returns
the default instead of raising `AttributeError`, so this lookup is total. -/
def getattr_default (obj : ThumbObj) (nm : String) : Option ImageVal :=
  match obj.lookup nm with
  | some v => v
  | none => none

/-- Django's `flatatt`: render an attribute dictionary as html attribute
text. -/
def flatatt (attrs : List (String × String)) : String :=
  attrs.foldl (fun acc kv => acc ++ " " ++ kv.1 ++ "=\x22" ++ kv.2 ++ "\x22") ""

/-- `ThumbnailMixin.admin_thumb(obj)`: look the image field up with
`getattr(obj, self.thumb_image_field_name, None)`.  Because that call has a
default, the `except AttributeError` handler that would raise
`ImproperlyConfigured` can never run; the function then renders an `img`
tag from the rendition when the image is truthy, an `img` tag with the
default source when `thumb_default` is truthy, and the empty string
otherwise. -/
def admin_thumb (cfg : ThumbnailConfig) (obj : ThumbObj) : Except PyError String :=
  let image := getattr_default obj cfg.thumb_image_field_name
  let img_attrs := [("src", cfg.thumb_default.getD ""),
                    ("width", toString cfg.thumb_image_width),
                    ("class", cfg.thumb_classname)]
  match image with
  | some img =>
    let img_attrs := [("src", img.rendition_url),
                      ("width", toString cfg.thumb_image_width),
                      ("class", cfg.thumb_classname)]
    .ok ("<img" ++ flatatt img_attrs ++ ">")
  | none =>
    match cfg.thumb_default with
    | some d =>
      if d = "" then .ok "" else .ok ("<img" ++ flatatt img_attrs ++ ">")
    | none => .ok ""

/-! Concrete fixtures used by witnesses and counterexamples. -/

/-- A plain (non-page) Django model with an auto-created id field, a title
field and an auto-created reverse relation. -/
def widgetModel : ModelClass :=
  ⟨"Shop", "Widget", true, false,
   [⟨"id", true, false, true, false⟩,
    ⟨"title", true, false, false, false⟩,
    ⟨"orders", false, true, true, true⟩]⟩

/-- A page model (subclass of `Page`). -/
def eventPageModel : ModelClass :=
  ⟨"Events", "EventPage", true, true,
   [⟨"id", true, false, true, false⟩,
    ⟨"title", true, false, false, false⟩]⟩

/-- A class that is not a Django model subclass. -/
def notAModel : ModelClass := ⟨"X", "PlainObject", false, false, []⟩

/-! Claims. -/

/-- C1: for every ModelAdmin subclass whose `model` attribute is unset
(`None`) or is not a Django model subclass, `__init__` raises
`ImproperlyConfigured`, and no helper is instantiated. -/
theorem C1_init_invalid_model_raises (cfg : ModelAdminConfig)
    (parent : Option String)
    (h : cfg.model = none ∨ ∃ m, cfg.model = some m ∧ m.is_django_model = false) :
    (∃ msg, ModelAdmin.initModelAdmin cfg parent =
      .error (.improperlyConfigured msg)) ∧
    ModelAdmin.helpersInstantiated (ModelAdmin.initModelAdmin cfg parent) = [] := by
  rcases h with h | ⟨m, hm, hdj⟩
  · constructor
    · exact ⟨"The model attribute on your class must be set, and must be a valid Django model.",
        by simp [ModelAdmin.initModelAdmin, h]⟩
    · simp [ModelAdmin.initModelAdmin, ModelAdmin.helpersInstantiated, h]
  · constructor
    · exact ⟨"The model attribute on your class must be set, and must be a valid Django model.",
        by simp [ModelAdmin.initModelAdmin, hm, hdj]⟩
    · simp [ModelAdmin.initModelAdmin, ModelAdmin.helpersInstantiated, hm, hdj]

/-- Witness for C1: a configuration with `model` left at `None`, and one
whose `model` is a class that is not a Django model. -/
theorem C1_init_invalid_model_raises_witness :
    ((∃ msg, ModelAdmin.initModelAdmin {} none =
       .error (.improperlyConfigured msg)) ∧
     ModelAdmin.helpersInstantiated (ModelAdmin.initModelAdmin {} none) = []) ∧
    ((∃ msg, ModelAdmin.initModelAdmin { model := some notAModel } none =
       .error (.improperlyConfigured msg)) ∧
     ModelAdmin.helpersInstantiated
       (ModelAdmin.initModelAdmin { model := some notAModel } none) = []) :=
  ⟨C1_init_invalid_model_raises {} none (Or.inl rfl),
   C1_init_invalid_model_raises { model := some notAModel } none
     (Or.inr ⟨notAModel, rfl, rfl⟩)⟩

/-- The configuration of the C2 counterexample: a valid plain model, all
other attributes left at their defaults. -/
def C2cfg : ModelAdminConfig := { model := some widgetModel }

/-- C2 counterexample: with a valid model the construction succeeds, and the
constructed object's attribute dictionary is exactly `opts`, `is_pagemodel`,
`parent`, `permission_helper` and `url_helper` — no `button_helper`
attribute is assigned, so the object does not carry three helper
instances. -/
theorem C2_counterexample_no_button_helper :
    ModelAdmin.initModelAdmin C2cfg none =
      .ok [("opts", .opts "Shop" "Widget"),
           ("is_pagemodel", .boolAttr false),
           ("parent", .parentAttr none),
           ("permission_helper", .permHelper .PermissionHelper widgetModel false),
           ("url_helper", .urlHelper .AdminURLHelper widgetModel)] ∧
    [("opts", AttrValue.opts "Shop" "Widget"),
     ("is_pagemodel", .boolAttr false),
     ("parent", .parentAttr none),
     ("permission_helper", .permHelper .PermissionHelper widgetModel false),
     ("url_helper", .urlHelper .AdminURLHelper widgetModel)].lookup
      "button_helper" = none := by
  constructor
  · rfl
  · rfl

/-- C2 amended: with a valid model, construction succeeds and produces the
two non-null helper instances assigned in `__init__` — the permission
helper (built from the resolved class, the model and
`inspect_view_enabled`) and the URL helper; the button helper is not
instantiated at construction. -/
theorem C2_amended_valid_model_constructs (cfg : ModelAdminConfig)
    (parent : Option String) (m : ModelClass)
    (hm : cfg.model = some m) (hdj : m.is_django_model = true) :
    ∃ attrs, ModelAdmin.initModelAdmin cfg parent = .ok attrs ∧
      attrs.lookup "permission_helper" =
        some (.permHelper (ModelAdmin.get_permission_helper_class ⟨cfg, m⟩) m
          cfg.inspect_view_enabled) ∧
      attrs.lookup "url_helper" =
        some (.urlHelper (ModelAdmin.get_url_helper_class ⟨cfg, m⟩) m) ∧
      attrs.lookup "button_helper" = none := by
  refine ⟨[("opts", .opts m.app_label m.model_name),
           ("is_pagemodel", .boolAttr m.is_page),
           ("parent", .parentAttr parent),
           ("permission_helper",
             .permHelper (ModelAdmin.get_permission_helper_class ⟨cfg, m⟩) m
               cfg.inspect_view_enabled),
           ("url_helper",
             .urlHelper (ModelAdmin.get_url_helper_class ⟨cfg, m⟩) m)],
    ?_, ?_, ?_, ?_⟩
  · simp [ModelAdmin.initModelAdmin, hm, hdj]
  · simp [List.lookup]
  · simp [List.lookup]
  · simp [List.lookup]

/-- Witness for C2's amended theorem at the concrete configuration. -/
theorem C2_amended_valid_model_constructs_witness :
    ∃ attrs, ModelAdmin.initModelAdmin C2cfg none = .ok attrs ∧
      attrs.lookup "permission_helper" =
        some (.permHelper (ModelAdmin.get_permission_helper_class
          ⟨C2cfg, widgetModel⟩) widgetModel C2cfg.inspect_view_enabled) ∧
      attrs.lookup "url_helper" =
        some (.urlHelper (ModelAdmin.get_url_helper_class
          ⟨C2cfg, widgetModel⟩) widgetModel) ∧
      attrs.lookup "button_helper" = none :=
  C2_amended_valid_model_constructs C2cfg none widgetModel rfl rfl

/-- C4 counterexample: a `menu_order` explicitly set to 0 is falsy in
`self.menu_order or 999`, so `get_menu_order` returns 999, not 0 — on both
`ModelAdmin` and `ModelAdminGroup`. -/
theorem C4_counterexample_menu_order_zero :
    ModelAdmin.get_menu_order { menu_order := some 0 } = 999 ∧
    ModelAdminGroup.get_menu_order { menu_order := some 0 } = 999 ∧
    (999 : Int) ≠ 0 := by decide

/-- C4 amended: `get_menu_order` (on ModelAdmin and on ModelAdminGroup)
returns the explicitly set `menu_order` whenever it is set and nonzero, and
returns 999 when it is unset or set to 0. -/
theorem C4_amended_menu_order (cfg : ModelAdminConfig)
    (g : ModelAdminGroupInst) :
    (∀ v : Int, v ≠ 0 → cfg.menu_order = some v →
      ModelAdmin.get_menu_order cfg = v) ∧
    (cfg.menu_order = none ∨ cfg.menu_order = some 0 →
      ModelAdmin.get_menu_order cfg = 999) ∧
    (∀ v : Int, v ≠ 0 → g.menu_order = some v →
      ModelAdminGroup.get_menu_order g = v) ∧
    (g.menu_order = none ∨ g.menu_order = some 0 →
      ModelAdminGroup.get_menu_order g = 999) := by
  refine ⟨?_, ?_, ?_, ?_⟩
  · intro v hv h
    simp [ModelAdmin.get_menu_order, h, hv]
  · rintro (h | h) <;> simp [ModelAdmin.get_menu_order, h]
  · intro v hv h
    simp [ModelAdminGroup.get_menu_order, h, hv]
  · rintro (h | h) <;> simp [ModelAdminGroup.get_menu_order, h]

/-- Witness for C4's amended theorem: explicit nonzero orders are returned,
unset and zero orders give 999. -/
theorem C4_amended_menu_order_witness :
    ModelAdmin.get_menu_order { menu_order := some 7 } = 7 ∧
    ModelAdmin.get_menu_order {} = 999 ∧
    ModelAdminGroup.get_menu_order { menu_order := some 3 } = 3 ∧
    ModelAdminGroup.get_menu_order { menu_order := some 0 } = 999 :=
  ⟨(C4_amended_menu_order { menu_order := some 7 } {}).1 7 (by decide) rfl,
   (C4_amended_menu_order {} {}).2.1 (Or.inl rfl),
   (C4_amended_menu_order {} { menu_order := some 3 }).2.2.1 3 (by decide) rfl,
   (C4_amended_menu_order {} { menu_order := some 0 }).2.2.2 (Or.inr rfl)⟩

/-- The C3 counterexample instance: `inspect_view_fields` explicitly
populated with a name that is also listed in
`inspect_view_fields_exclude`. -/
def C3inst : ModelAdminInst :=
  ⟨{ model := some widgetModel,
     inspect_view_fields := ["title"],
     inspect_view_fields_exclude := ["title"] }, widgetModel⟩

/-- C3 counterexample: when `inspect_view_fields` is explicitly populated it
is returned unchanged, so a name listed in `inspect_view_fields_exclude`
can still appear in the result of `get_inspect_view_fields`. -/
theorem C3_counterexample_explicit_list_not_filtered :
    "title" ∈ C3inst.cfg.inspect_view_fields_exclude ∧
    "title" ∈ ModelAdmin.get_inspect_view_fields C3inst := by decide

/-- C3 amended: the exclusion applies only on the automatic-derivation path:
when `inspect_view_fields` is empty, no excluded name appears in the result;
when it is explicitly populated, it is returned unchanged (exclusions are
not applied). -/
theorem C3_amended_exclusion_on_derived_path (self : ModelAdminInst) :
    (self.cfg.inspect_view_fields = [] →
      ∀ nm ∈ self.cfg.inspect_view_fields_exclude,
        nm ∉ ModelAdmin.get_inspect_view_fields self) ∧
    (self.cfg.inspect_view_fields ≠ [] →
      ModelAdmin.get_inspect_view_fields self = self.cfg.inspect_view_fields) := by
  constructor
  · intro h nm hmem hcontra
    unfold ModelAdmin.get_inspect_view_fields at hcontra
    rw [if_pos h] at hcontra
    obtain ⟨f, hf, hname⟩ := List.mem_map.1 hcontra
    have hb := (List.mem_filter.1 hf).2
    rw [Bool.and_eq_true] at hb
    have hnot : f.name ∉ self.cfg.inspect_view_fields_exclude := by
      simpa using hb.1
    exact hnot (hname ▸ hmem)
  · intro h
    simp [ModelAdmin.get_inspect_view_fields, h]

/-- Witness for C3's amended theorem: with an empty `inspect_view_fields`
and `id` excluded, the derived list keeps `title` only; with an explicit
list, it is returned unchanged. -/
theorem C3_amended_exclusion_on_derived_path_witness :
    ModelAdmin.get_inspect_view_fields
      ⟨{ model := some widgetModel,
         inspect_view_fields_exclude := ["id"] }, widgetModel⟩ = ["title"] ∧
    "id" ∉ ModelAdmin.get_inspect_view_fields
      ⟨{ model := some widgetModel,
         inspect_view_fields_exclude := ["id"] }, widgetModel⟩ ∧
    ModelAdmin.get_inspect_view_fields C3inst = ["title"] :=
  ⟨by decide,
   (C3_amended_exclusion_on_derived_path
     ⟨{ model := some widgetModel,
        inspect_view_fields_exclude := ["id"] }, widgetModel⟩).1 rfl "id"
     (by decide),
   (C3_amended_exclusion_on_derived_path C3inst).2 (by decide)⟩

/-- The C5 counterexample instance: a valid model with every template-name
attribute left at its default (the empty string). -/
def C5inst : ModelAdminInst := ⟨{ model := some widgetModel }, widgetModel⟩

/-- C5 counterexample: with no explicit override, `get_index_template`
returns the three-tier fallback list rooted at `modeladmin/`, not at
`admin/` as the claim states. -/
theorem C5_counterexample_template_root :
    ModelAdmin.get_index_template C5inst =
      .candidates ["modeladmin/shop/widget/index.html",
                   "modeladmin/shop/index.html",
                   "modeladmin/index.html"] ∧
    ModelAdmin.get_index_template C5inst ≠
      .candidates ["admin/shop/widget/index.html",
                   "admin/shop/index.html",
                   "admin/index.html"] := by
  have h1 : ModelAdmin.get_index_template C5inst =
      .candidates ["modeladmin/shop/widget/index.html",
                   "modeladmin/shop/index.html",
                   "modeladmin/index.html"] := by decide
  refine ⟨h1, ?_⟩
  rw [h1]
  decide

/-- C5 amended: each of the six template resolvers returns the explicit
per-action template-name override when that attribute is set (non-empty),
and otherwise the three-element fallback list, in order
`modeladmin/<app>/<model>/<action>.html`, then
`modeladmin/<app>/<action>.html`, then `modeladmin/<action>.html`, with the
app label and model name lowercased. -/
theorem C5_amended_template_resolution (self : ModelAdminInst) :
    (∀ action, ModelAdmin.get_templates self action =
      ["modeladmin/" ++ ModelAdmin.pyLower self.m.app_label ++ "/" ++
         ModelAdmin.pyLower self.m.model_name ++ "/" ++ action ++ ".html",
       "modeladmin/" ++ ModelAdmin.pyLower self.m.app_label ++ "/" ++
         action ++ ".html",
       "modeladmin/" ++ action ++ ".html"]) ∧
    (self.cfg.index_template_name ≠ "" →
      ModelAdmin.get_index_template self = .single self.cfg.index_template_name) ∧
    (self.cfg.index_template_name = "" →
      ModelAdmin.get_index_template self =
        .candidates (ModelAdmin.get_templates self "index")) ∧
    (self.cfg.create_template_name ≠ "" →
      ModelAdmin.get_create_template self = .single self.cfg.create_template_name) ∧
    (self.cfg.create_template_name = "" →
      ModelAdmin.get_create_template self =
        .candidates (ModelAdmin.get_templates self "create")) ∧
    (self.cfg.edit_template_name ≠ "" →
      ModelAdmin.get_edit_template self = .single self.cfg.edit_template_name) ∧
    (self.cfg.edit_template_name = "" →
      ModelAdmin.get_edit_template self =
        .candidates (ModelAdmin.get_templates self "edit")) ∧
    (self.cfg.inspect_template_name ≠ "" →
      ModelAdmin.get_inspect_template self = .single self.cfg.inspect_template_name) ∧
    (self.cfg.inspect_template_name = "" →
      ModelAdmin.get_inspect_template self =
        .candidates (ModelAdmin.get_templates self "inspect")) ∧
    (self.cfg.delete_template_name ≠ "" →
      ModelAdmin.get_delete_template self = .single self.cfg.delete_template_name) ∧
    (self.cfg.delete_template_name = "" →
      ModelAdmin.get_delete_template self =
        .candidates (ModelAdmin.get_templates self "delete")) ∧
    (self.cfg.choose_parent_template_name ≠ "" →
      ModelAdmin.get_choose_parent_template self =
        .single self.cfg.choose_parent_template_name) ∧
    (self.cfg.choose_parent_template_name = "" →
      ModelAdmin.get_choose_parent_template self =
        .candidates (ModelAdmin.get_templates self "choose_parent")) := by
  refine ⟨fun action => by simp [ModelAdmin.get_templates],
    ?_, ?_, ?_, ?_, ?_, ?_, ?_, ?_, ?_, ?_, ?_, ?_⟩ <;>
    intro h <;>
    simp [ModelAdmin.get_index_template, ModelAdmin.get_create_template,
      ModelAdmin.get_edit_template, ModelAdmin.get_inspect_template,
      ModelAdmin.get_delete_template, ModelAdmin.get_choose_parent_template,
      ModelAdmin.get_templates, h]

/-- Witness for C5's amended theorem: an explicit override is returned
as-is; the default configuration yields the documented three-element
fallback list for the index action. -/
theorem C5_amended_template_resolution_witness :
    ModelAdmin.get_index_template
      ⟨{ model := some widgetModel,
         index_template_name := "my/custom.html" }, widgetModel⟩ =
      .single "my/custom.html" ∧
    ModelAdmin.get_index_template C5inst =
      .candidates (ModelAdmin.get_templates C5inst "index") :=
  ⟨(C5_amended_template_resolution
      ⟨{ model := some widgetModel,
         index_template_name := "my/custom.html" }, widgetModel⟩).2.1
     (by decide),
   (C5_amended_template_resolution C5inst).2.2.1 rfl⟩

/-- Appending member contributions with a left fold from an accumulator is
the accumulator followed by the flattened member contributions. -/
theorem foldl_append_eq_flatten {α β : Type} (f : α → List β) (l : List α)
    (acc : List β) :
    l.foldl (fun urls x => urls ++ f x) acc = acc ++ (l.map f).flatten := by
  induction l generalizing acc with
  | nil => simp
  | cons x xs ih => simp [ih, List.append_assoc]

/-- C6: a group's `get_admin_urls_for_registration` is exactly the
concatenation, in member order, of each member instance's
`get_admin_urls_for_registration` tuple. -/
theorem C6_group_urls_concatenation (g : ModelAdminGroupInst) :
    ModelAdminGroup.get_admin_urls_for_registration g =
      (g.modeladmin_instances.map ModelAdmin.get_admin_urls_for_registration).flatten := by
  unfold ModelAdminGroup.get_admin_urls_for_registration
  simpa using foldl_append_eq_flatten ModelAdmin.get_admin_urls_for_registration
    g.modeladmin_instances []

/-- C7: each helper-class resolver returns the explicit override attribute
when it is set; otherwise it returns the page-specific helper class exactly
when the model is a Page subclass, and the generic helper class
otherwise. -/
theorem C7_helper_class_resolution (self : ModelAdminInst) :
    (∀ c, self.cfg.permission_helper_class = some c →
      ModelAdmin.get_permission_helper_class self = c) ∧
    (self.cfg.permission_helper_class = none →
      ModelAdmin.get_permission_helper_class self =
        (if self.m.is_page then .PagePermissionHelper else .PermissionHelper)) ∧
    (∀ c, self.cfg.url_helper_class = some c →
      ModelAdmin.get_url_helper_class self = c) ∧
    (self.cfg.url_helper_class = none →
      ModelAdmin.get_url_helper_class self =
        (if self.m.is_page then .PageAdminURLHelper else .AdminURLHelper)) ∧
    (∀ c, self.cfg.button_helper_class = some c →
      ModelAdmin.get_button_helper_class self = c) ∧
    (self.cfg.button_helper_class = none →
      ModelAdmin.get_button_helper_class self =
        (if self.m.is_page then .PageButtonHelper else .ButtonHelper)) := by
  refine ⟨?_, ?_, ?_, ?_, ?_, ?_⟩
  · intro c hc
    simp [ModelAdmin.get_permission_helper_class, hc]
  · intro h
    simp [ModelAdmin.get_permission_helper_class, h]
  · intro c hc
    simp [ModelAdmin.get_url_helper_class, hc]
  · intro h
    simp [ModelAdmin.get_url_helper_class, h]
  · intro c hc
    simp [ModelAdmin.get_button_helper_class, hc]
  · intro h
    simp [ModelAdmin.get_button_helper_class, h]

/-- Witness for C7: an override is returned as-is; without an override the
page model gets the page helpers and the plain model the generic ones. -/
theorem C7_helper_class_resolution_witness :
    ModelAdmin.get_permission_helper_class
      ⟨{ model := some widgetModel,
         permission_helper_class := some (.custom "MyPermissionHelper") },
       widgetModel⟩ = .custom "MyPermissionHelper" ∧
    ModelAdmin.get_url_helper_class
      ⟨{ model := some eventPageModel }, eventPageModel⟩ = .PageAdminURLHelper ∧
    ModelAdmin.get_button_helper_class
      ⟨{ model := some widgetModel }, widgetModel⟩ = .ButtonHelper := by
  refine ⟨(C7_helper_class_resolution _).1 _ rfl, ?_, ?_⟩
  · have h := (C7_helper_class_resolution
      ⟨{ model := some eventPageModel }, eventPageModel⟩).2.2.2.1 rfl
    simpa using h
  · have h := (C7_helper_class_resolution
      ⟨{ model := some widgetModel }, widgetModel⟩).2.2.2.2.2 rfl
    simpa using h

/-- The C8 failing input: a thumbnail configuration naming a field that the
object does not have, with no `thumb_default`. -/
def C8cfg : ThumbnailConfig := { thumb_image_field_name := "photo" }

/-- An object without a `photo` attribute. -/
def C8obj : ThumbObj := [("title_image", some ⟨"renditions/cover.jpg"⟩)]

/-- C8: because `getattr(obj, self.thumb_image_field_name, None)` is called
with a default, it returns `None` instead of raising `AttributeError` when
the named field does not exist, so the `except AttributeError` handler that
would raise `ImproperlyConfigured` is unreachable: at the failing input the
call returns the empty string, and `admin_thumb` never raises at all. -/
theorem C8_missing_field_raises_no_error :
    admin_thumb C8cfg C8obj = .ok "" ∧
    (∀ cfg obj, ∃ s, admin_thumb cfg obj = .ok s) := by
  constructor
  · rfl
  · intro cfg obj
    unfold admin_thumb
    cases getattr_default obj cfg.thumb_image_field_name with
    | some img => exact ⟨_, rfl⟩
    | none =>
      cases cfg.thumb_default with
      | some d =>
        by_cases hd : d = ""
        · exact ⟨"", by simp [hd]⟩
        · exact ⟨"<img" ++ flatatt [("src", (some d).getD ""),
            ("width", toString cfg.thumb_image_width),
            ("class", cfg.thumb_classname)] ++ ">", by simp [hd]⟩
      | none => exact ⟨"", rfl⟩

/-- The C9 witness instances: `list_display_add_buttons` unset, with a
populated and an empty `list_display` respectively. -/
def C9instA : ModelAdminInst :=
  ⟨{ model := some widgetModel, list_display := ["title", "status"] },
   widgetModel⟩

/-- A ModelAdmin instance with an empty `list_display`. -/
def C9instB : ModelAdminInst :=
  ⟨{ model := some widgetModel, list_display := [] }, widgetModel⟩

/-- C9: when `list_display_add_buttons` is unset, the method returns the
first element of `get_list_display(request)`; with an empty list the
indexing fails with `IndexError`. -/
theorem C9_add_buttons_defaults_to_first (self : ModelAdminInst)
    (request : Unit) (h : self.cfg.list_display_add_buttons = none) :
    (∀ x xs, ModelAdmin.get_list_display self request = x :: xs →
      ModelAdmin.get_list_display_add_buttons self request = .ok x) ∧
    (ModelAdmin.get_list_display self request = [] →
      ModelAdmin.get_list_display_add_buttons self request =
        .error .indexError) := by
  constructor
  · intro x xs hx
    simp [ModelAdmin.get_list_display_add_buttons, h, hx]
  · intro hx
    simp [ModelAdmin.get_list_display_add_buttons, h, hx]

/-- Witness for C9: the populated list yields its first element, the empty
list yields `IndexError`. -/
theorem C9_add_buttons_defaults_to_first_witness :
    ModelAdmin.get_list_display_add_buttons C9instA () = .ok "title" ∧
    ModelAdmin.get_list_display_add_buttons C9instB () =
      .error .indexError :=
  ⟨(C9_add_buttons_defaults_to_first C9instA () rfl).1 "title" ["status"] rfl,
   (C9_add_buttons_defaults_to_first C9instB () rfl).2 rfl⟩

/-- C10: `get_permissions_for_registration` returns the empty permission
queryset exactly when the model is a Page subclass or is registered as a
snippet, and the model's full permission set otherwise. -/
theorem C10_permissions_for_registration (self : ModelAdminInst)
    (snippet_models : List ModelClass) :
    (self.m.is_page = true ∨ self.m ∈ snippet_models →
      ModelAdmin.get_permissions_for_registration self snippet_models =
        .empty) ∧
    (self.m.is_page = false → self.m ∉ snippet_models →
      ModelAdmin.get_permissions_for_registration self snippet_models =
        .allFor self.m) := by
  constructor
  · rintro (h | h) <;>
      simp [ModelAdmin.get_permissions_for_registration, h]
  · intro h1 h2
    simp [ModelAdmin.get_permissions_for_registration, h1, h2]

/-- Witness for C10: a page model and a snippet-registered model yield the
empty queryset; a plain unregistered model yields its full permission
set. -/
theorem C10_permissions_for_registration_witness :
    ModelAdmin.get_permissions_for_registration
      ⟨{ model := some eventPageModel }, eventPageModel⟩ [] = .empty ∧
    ModelAdmin.get_permissions_for_registration
      ⟨{ model := some widgetModel }, widgetModel⟩ [widgetModel] = .empty ∧
    ModelAdmin.get_permissions_for_registration
      ⟨{ model := some widgetModel }, widgetModel⟩ [] =
      .allFor widgetModel :=
  ⟨(C10_permissions_for_registration
      ⟨{ model := some eventPageModel }, eventPageModel⟩ []).1 (Or.inl rfl),
   (C10_permissions_for_registration
      ⟨{ model := some widgetModel }, widgetModel⟩ [widgetModel]).1
     (Or.inr (by decide)),
   (C10_permissions_for_registration
      ⟨{ model := some widgetModel }, widgetModel⟩ []).2 rfl
     (by decide)⟩

end WagtailModelAdmin
